import Mathlib

/-!
Verification of the lifecycle-orchestration core of
`selfdrive/manager/manager.py` (carrotpilot): a shallow embedding of the
manager's bootstrap sequence (`manager_init`), steady-state loop
(`manager_thread`), two-phase teardown (`manager_cleanup`) and top-level
sequencing (`main`), together with theorems settling the spec's claims.

External collaborators (the persistent parameter store's engine, the
message bus, process control, registration, hardware power actions) are
modelled by their interfaces; environment lookups and file probes become
explicit parameters.
-/

namespace Manager

/-- The persistent key-value store (`Params`): keys and values are opaque
strings, a missing key reads as `none` (Python `params.get(k) is None`). -/
abbrev Params := String → Option String

/-- `params.put(k, v)`. -/
def Params.put (s : Params) (k v : String) : Params :=
  fun k' => if k' = k then some v else s k'

/-- `params.put_bool(k, b)`: booleans are stored as "1" / "0". -/
def Params.putBool (s : Params) (k : String) (b : Bool) : Params :=
  s.put k (if b then "1" else "0")

/-- `params.get_bool(k)`: true iff the stored value is the true encoding. -/
def Params.getBool (s : Params) (k : String) : Bool :=
  s k == some "1"

/-- A store with every key unset. -/
def emptyParams : Params := fun _ => none

/-- `ParamKeyType`: the category tags whose keys are cleared at fixed
lifecycle moments (`common/params.py`, external to the manager source). -/
inductive ParamKeyType
  | CLEAR_ON_MANAGER_START
  | CLEAR_ON_ONROAD_TRANSITION
  | CLEAR_ON_OFFROAD_TRANSITION
  | DEVELOPMENT_ONLY
  deriving DecidableEq, Repr

/-- `params.clear_all(cat)` removes exactly the keys tagged with `cat`;
the tagging `tags` lives in the external store engine and is a parameter. -/
def Params.clearAll (s : Params) (tags : String → ParamKeyType → Bool) (cat : ParamKeyType) : Params :=
  fun k => if tags k cat then none else s k

/-- The three power actions of the HARDWARE collaborator. -/
inductive PowerAction
  | uninstall
  | reboot
  | shutdown
  deriving DecidableEq, Repr

/-- Lines 285-294 of `manager_thread`: the end-of-tick shutdown-flag scan.
Iterates over `("DoUninstall", "DoShutdown", "DoReboot")` in that order,
WITHOUT breaking on the first true flag; every true flag (when the WSL2
test-environment guard `is_running_on_wsl2()` is inactive) sets the
`shutdown` exit signal and overwrites `LastManagerExitReason` with
`f"{param} {datetime.datetime.now()}"`.  `wsl2` models the constant result
of the `/proc/version` probe, `now` the timestamp string. -/
def shutdownFlagsCheck (wsl2 : Bool) (now : String) (s : Params) : Bool × Params :=
  (["DoUninstall", "DoShutdown", "DoReboot"]).foldl
    (fun acc p =>
      if acc.2.getBool p && !wsl2 then
        (true, acc.2.put "LastManagerExitReason" (p ++ " " ++ now))
      else acc)
    (false, s)

/-- Lines 329-338 of `main`: the post-loop power dispatch.  Re-reads the
three flags from a fresh `Params()` handle with `if/elif` priority
`DoUninstall`, then `DoReboot`, then `DoShutdown`; no WSL2 guard. -/
def powerDispatch (s : Params) : Option PowerAction :=
  if s.getBool "DoUninstall" then some PowerAction.uninstall
  else if s.getBool "DoReboot" then some PowerAction.reboot
  else if s.getBool "DoShutdown" then some PowerAction.shutdown
  else none

theorem Params.get_put_self (s : Params) (k v : String) : (s.put k v) k = some v :=
  if_pos rfl

theorem Params.get_put_ne (s : Params) {k k' : String} (v : String) (h : k' ≠ k) :
    (s.put k v) k' = s k' :=
  if_neg h

theorem Params.getBool_put_ne (s : Params) {k k' : String} (v : String) (h : k' ≠ k) :
    (s.put k v).getBool k' = s.getBool k' := by
  simp [Params.getBool, Params.put, h]

theorem Params.getBool_put_reason_uninstall (s : Params) (v : String) :
    (s.put "LastManagerExitReason" v).getBool "DoUninstall" = s.getBool "DoUninstall" :=
  Params.getBool_put_ne s v (by decide)

theorem Params.getBool_put_reason_shutdown (s : Params) (v : String) :
    (s.put "LastManagerExitReason" v).getBool "DoShutdown" = s.getBool "DoShutdown" :=
  Params.getBool_put_ne s v (by decide)

theorem Params.getBool_put_reason_reboot (s : Params) (v : String) :
    (s.put "LastManagerExitReason" v).getBool "DoReboot" = s.getBool "DoReboot" :=
  Params.getBool_put_ne s v (by decide)

/-- Store of the C1 scenario: both `DoUninstall` and `DoShutdown` are true. -/
def uninstallAndShutdownStore : Params :=
  (emptyParams.putBool "DoUninstall" true).putBool "DoShutdown" true

/-- Claim C1 counterexample: with both `DoUninstall` and `DoShutdown` true on
the same tick (WSL2 guard inactive), the loop does exit, but the persisted
`LastManagerExitReason` names `DoShutdown` — not the claimed highest-priority
flag `DoUninstall` — because the flag scan has no break and every true flag
overwrites the record.  The post-loop dispatch still picks uninstall. -/
theorem shutdown_priority_claim_counterexample :
    (shutdownFlagsCheck false "T" uninstallAndShutdownStore).1 = true ∧
    (shutdownFlagsCheck false "T" uninstallAndShutdownStore).2 "LastManagerExitReason" =
      some "DoShutdown T" ∧
    (shutdownFlagsCheck false "T" uninstallAndShutdownStore).2 "LastManagerExitReason" ≠
      some "DoUninstall T" ∧
    powerDispatch (shutdownFlagsCheck false "T" uninstallAndShutdownStore).2 =
      some PowerAction.uninstall := by
  decide

/-- Claim C1 (amended): on a tick where at least one shutdown flag is true and
the WSL2 test-environment guard is inactive, the loop ends after that tick,
but the persisted `LastManagerExitReason` names the LAST true flag in the
evaluation order `DoUninstall`, `DoShutdown`, `DoReboot` (each true flag
overwrites the record), while the post-loop `PowerControl` dispatch invokes the
action of the highest-priority true flag (`DoUninstall` over `DoReboot` over
`DoShutdown`).  In particular, if both `DoUninstall` and `DoShutdown` are true,
the recorded reason is `DoShutdown` yet the action invoked is uninstall. -/
theorem shutdown_flags_exit_reason_and_dispatch (s : Params) (now : String) :
    (shutdownFlagsCheck false now s).1 =
      (s.getBool "DoUninstall" || s.getBool "DoShutdown" || s.getBool "DoReboot") ∧
    (shutdownFlagsCheck false now s).2 "LastManagerExitReason" =
      (if s.getBool "DoReboot" then some ("DoReboot " ++ now)
       else if s.getBool "DoShutdown" then some ("DoShutdown " ++ now)
       else if s.getBool "DoUninstall" then some ("DoUninstall " ++ now)
       else s "LastManagerExitReason") ∧
    powerDispatch (shutdownFlagsCheck false now s).2 =
      (if s.getBool "DoUninstall" then some PowerAction.uninstall
       else if s.getBool "DoReboot" then some PowerAction.reboot
       else if s.getBool "DoShutdown" then some PowerAction.shutdown
       else none) := by
  cases hU : s.getBool "DoUninstall" <;> cases hS : s.getBool "DoShutdown" <;>
    cases hR : s.getBool "DoReboot" <;>
      simp [shutdownFlagsCheck, powerDispatch, Params.getBool_put_reason_uninstall,
        Params.getBool_put_reason_shutdown, Params.getBool_put_reason_reboot,
        Params.get_put_self, hU, hS, hR]

/-- The two kinds of raisable signal relevant to `main`'s handlers:
`runtimeError` stands for any ordinary `Exception` escaping the loop body;
`systemExit` is the `SystemExit` raised by the SIGTERM handler's
`sys.exit(1)` (line 319).  In Python, `SystemExit` derives from
`BaseException`, not `Exception`. -/
inductive PyExc
  | runtimeError
  | systemExit
  deriving DecidableEq, Repr

/-- Whether `except Exception:` catches the raised signal. -/
def PyExc.caughtByExceptException : PyExc → Bool
  | .runtimeError => true
  | .systemExit => false

/-- Observable events of `main` (and of the `__main__` guard), in order. -/
inductive MainEv
  | initFail (msg : String)
  | uiStart
  | prepareAll
  | sigInstall
  | loopRun
  | report
  | cleanup
  | power (a : PowerAction)
  deriving DecidableEq, Repr

/-- Number of occurrences of event `e` in a trace. -/
def countEv (e : MainEv) : List MainEv → Nat
  | [] => 0
  | x :: xs => (if x = e then 1 else 0) + countEv e xs

/-- Lines 329-338 of `main` as events: the power dispatch invokes at most one
terminal action, chosen from the freshly re-read store. -/
def powerEvents (s : Params) : List MainEv :=
  match powerDispatch s with
  | some a => [MainEv.power a]
  | none => []

/-- Lines 321-338 of `main`: `try: manager_thread()` with
`except Exception: traceback.print_exc(); sentry.capture_exception()` and
`finally: manager_cleanup()`, followed by the power dispatch.  `outcome` is
what escaped the loop (`none` for a normal break), `sAfter` the store when the
loop ended.  An ordinary exception is caught (a `report` event) and control
reaches the dispatch; a `SystemExit` skips the `except` clause and keeps
propagating after the `finally`, so the dispatch never runs; the `finally`
cleanup happens in every case. -/
def mainTail (outcome : Option PyExc) (sAfter : Params) : List MainEv :=
  (match outcome with
   | some e => if e.caughtByExceptException then [MainEv.report] else []
   | none => []) ++
  [MainEv.cleanup] ++
  (match outcome with
   | some e => if e.caughtByExceptException then powerEvents sAfter else []
   | none => powerEvents sAfter)

/-- Claim C2 counterexample: when the cancellation signal (the SIGTERM
handler's `SystemExit`) escapes the loop, it is NOT reported to the
error-reporting collaborator — `except Exception` does not catch
`SystemExit` — although the `finally` teardown still runs exactly once. -/
theorem failure_recovery_claim_counterexample :
    countEv MainEv.report (mainTail (some PyExc.systemExit) emptyParams) = 0 ∧
    countEv MainEv.cleanup (mainTail (some PyExc.systemExit) emptyParams) = 1 := by
  decide

/-- Claim C2 (amended): teardown is never skipped — for every loop outcome
(normal break, ordinary exception, or the converted cancellation signal) the
cleanup sequencer runs exactly once before the process exits; an ordinary
exception escaping the loop body is reported to the error-reporting
collaborator exactly once, but the cancellation `SystemExit` bypasses the
`except Exception` report clause and is never reported. -/
theorem failure_recovery_cleanup_and_report (outcome : Option PyExc) (s : Params) :
    countEv MainEv.cleanup (mainTail outcome s) = 1 ∧
    countEv MainEv.report (mainTail (some PyExc.runtimeError) s) = 1 ∧
    countEv MainEv.report (mainTail (some PyExc.systemExit) s) = 0 := by
  have hdisp : ∀ e, countEv e (powerEvents s) = 0 ∨ ∃ a, powerEvents s = [MainEv.power a] := by
    intro e
    cases h : powerDispatch s with
    | none => exact Or.inl (by simp [powerEvents, h, countEv])
    | some a => exact Or.inr ⟨a, by simp [powerEvents, h]⟩
  refine ⟨?_, ?_, ?_⟩ <;>
    · first
      | (cases outcome with
         | none =>
            rcases hdisp MainEv.cleanup with h | ⟨a, h⟩ <;>
              simp [mainTail, countEv, h, PyExc.caughtByExceptException]
         | some e =>
            cases e <;>
              rcases hdisp MainEv.cleanup with h | ⟨a, h⟩ <;>
                simp [mainTail, countEv, h, PyExc.caughtByExceptException])
      | (rcases hdisp MainEv.report with h | ⟨a, h⟩ <;>
          simp [mainTail, countEv, h, PyExc.caughtByExceptException])

/-- Claim C9: the post-loop power dispatch re-reads the three shutdown flags
from the store and ignores both the recorded exit reason and the WSL2 guard.
With `DoShutdown` set while the WSL2 guard is active, the in-loop scan
neither exits nor records a reason (`shutdownFlagsCheck` returns the store
unchanged), yet after an ordinary exception escapes the loop the tail of
`main` still reports, cleans up, and invokes the shutdown action; and
overwriting `LastManagerExitReason` never changes the dispatched action. -/
theorem post_loop_dispatch_reads_flags (s : Params) (now r : String)
    (hU : s.getBool "DoUninstall" = false) (hR : s.getBool "DoReboot" = false)
    (hS : s.getBool "DoShutdown" = true) :
    shutdownFlagsCheck true now s = (false, s) ∧
    mainTail (some PyExc.runtimeError) s =
      [MainEv.report, MainEv.cleanup, MainEv.power PowerAction.shutdown] ∧
    powerDispatch (s.put "LastManagerExitReason" r) = powerDispatch s := by
  refine ⟨by simp [shutdownFlagsCheck], ?_, ?_⟩
  · simp [mainTail, powerEvents, powerDispatch, PyExc.caughtByExceptException, hU, hR, hS]
  · simp [powerDispatch, Params.getBool_put_reason_uninstall,
      Params.getBool_put_reason_shutdown, Params.getBool_put_reason_reboot]

/-- Witness for C9 at a concrete store with only `DoShutdown` set. -/
theorem post_loop_dispatch_reads_flags_witness :
    shutdownFlagsCheck true "T" (emptyParams.putBool "DoShutdown" true) =
      (false, emptyParams.putBool "DoShutdown" true) ∧
    mainTail (some PyExc.runtimeError) (emptyParams.putBool "DoShutdown" true) =
      [MainEv.report, MainEv.cleanup, MainEv.power PowerAction.shutdown] ∧
    powerDispatch ((emptyParams.putBool "DoShutdown" true).put "LastManagerExitReason" "x") =
      powerDispatch (emptyParams.putBool "DoShutdown" true) :=
  post_loop_dispatch_reads_flags (emptyParams.putBool "DoShutdown" true) "T" "x"
    (by decide) (by decide) (by decide)

/-- Modelled from the spec: the `Unregistered` sentinel exported by the
external registration collaborator (`UNREGISTERED_DONGLE_ID` from
`selfdrive/athena/registration.py`, not part of this source); the spec
treats the value itself as opaque, only equality with it matters. -/
def UNREGISTERED_DONGLE_ID : String := "UnregisteredDevice"

def splitCommaAux : List Char → List Char → List String
  | [], acc => [String.mk acc.reverse]
  | c :: rest, acc =>
      if c = ',' then String.mk acc.reverse :: splitCommaAux rest []
      else splitCommaAux rest (c :: acc)

/-- Python's `s.split(",")`: split on every comma, keeping empty pieces
(so `"".split(",") == [""]`). -/
def splitComma (s : String) : List String :=
  splitCommaAux s.data []

/-- Lines 238-243 of `manager_thread`: the ignore list, computed once at loop
entry.  `dongleId` is `params.get("DongleId")`, `noboard` whether the
`NOBOARD` environment override is present, and `blockEnv` the `BLOCK`
environment value (an absent variable reads as `""`). -/
def computeIgnore (dongleId : Option String) (noboard : Bool) (blockEnv : String) : List String :=
  (if dongleId = none ∨ dongleId = some UNREGISTERED_DONGLE_ID then
    ["manage_athenad", "uploader"] else []) ++
  (if noboard then ["pandad"] else []) ++
  (splitComma blockEnv).filter (fun x => x.length > 0)

theorem string_pos_len_iff (x : String) : (0 < x.length) ↔ x ≠ "" := by
  cases x with
  | mk data => cases data <;> simp [String.length, String.ext_iff]

/-- Claim C7: the ignore set is exactly the union of the
registration-gated pair `manage_athenad`/`uploader` (dongle id absent or the
`Unregistered` sentinel), `pandad` under the `NOBOARD` override, and every
non-empty name of the comma-separated `BLOCK` list; in particular
`BLOCK="uploader,logcatd"` contributes `uploader` and `logcatd`. -/
theorem ignore_set_union (d : Option String) (nb : Bool) (blk : String) (w : String) :
    (w ∈ computeIgnore d nb blk ↔
      ((d = none ∨ d = some UNREGISTERED_DONGLE_ID) ∧ (w = "manage_athenad" ∨ w = "uploader")) ∨
      (nb = true ∧ w = "pandad") ∨
      (w ∈ splitComma blk ∧ w ≠ "")) ∧
    "uploader" ∈ computeIgnore (some "abc") false "uploader,logcatd" ∧
    "logcatd" ∈ computeIgnore (some "abc") false "uploader,logcatd" := by
  refine ⟨?_, by decide, by decide⟩
  by_cases hd : d = none ∨ d = some UNREGISTERED_DONGLE_ID <;>
    cases nb <;>
      simp [computeIgnore, hd, List.mem_filter, string_pos_len_iff] <;> tauto

/-- Observable events of `manager_thread`, in program order. -/
inductive ThreadEv
  | writeOnroadParams (started : Bool)
  | ensureRunning (started : Bool) (ignore : List String)
  | sample (started : Bool)
  | clearCat (c : ParamKeyType)
  | publishHeartbeat
  deriving DecidableEq, Repr

/-- One iteration of the `while True` loop (lines 256-283), as events: sample
`deviceState.started` (line 258), clear the matching transition category on an
edge (lines 260-263), rewrite the on-road params on either edge (lines
266-267), call `ensure_running` every tick (line 271), publish the
`managerState` heartbeat (lines 281-283).  The end-of-tick shutdown-flag scan
(lines 285-294) acts on the store and is modelled by `shutdownFlagsCheck`. -/
def tickEvents (ignore : List String) (startedPrev started : Bool) : List ThreadEv :=
  [ThreadEv.sample started] ++
  (if started && !startedPrev then [ThreadEv.clearCat ParamKeyType.CLEAR_ON_ONROAD_TRANSITION]
   else if !started && startedPrev then [ThreadEv.clearCat ParamKeyType.CLEAR_ON_OFFROAD_TRANSITION]
   else []) ++
  (if started != startedPrev then [ThreadEv.writeOnroadParams started] else []) ++
  [ThreadEv.ensureRunning started ignore, ThreadEv.publishHeartbeat]

/-- The loop's per-tick event lists for a sampled `started` sequence,
threading `started_prev` (initialised to `False` at line 253). -/
def loopTicks (ignore : List String) : Bool → List Bool → List (List ThreadEv)
  | _, [] => []
  | prev, st :: rest => tickEvents ignore prev st :: loopTicks ignore st rest

/-- Lines 245-283 of `manager_thread`: before the loop the core writes the
off-road on-road-params (`write_onroad_params(False, params)`, line 248) and
calls `ensure_running(..., started=False, not_run=ignore)` once (line 249);
then the loop's ticks follow. -/
def manager_thread_events (dongleId : Option String) (noboard : Bool) (blockEnv : String)
    (samples : List Bool) : List ThreadEv :=
  let ignore := computeIgnore dongleId noboard blockEnv
  [ThreadEv.writeOnroadParams false, ThreadEv.ensureRunning false ignore] ++
  (loopTicks ignore false samples).flatten

/-- Number of clear events for category `c` in a tick's event list. -/
def countClear (c : ParamKeyType) : List ThreadEv → Nat
  | [] => 0
  | ThreadEv.clearCat c' :: xs => (if c' = c then 1 else 0) + countClear c xs
  | _ :: xs => countClear c xs

def ThreadEv.isSample : ThreadEv → Bool
  | .sample _ => true
  | _ => false

/-- Claim C3: for the sampled sequence `[OffRoad, OffRoad, OnRoad, OnRoad,
OffRoad]` with the initial previous state off-road, the on-road transition
category is cleared exactly once (tick index 2) and the off-road transition
category exactly once (tick index 4); and a tick whose sample equals the
previous tick's state never clears either category. -/
theorem transition_clears_scenario :
    ((loopTicks [] false [false, false, true, true, false]).map
        (countClear ParamKeyType.CLEAR_ON_ONROAD_TRANSITION)) = [0, 0, 1, 0, 0] ∧
    ((loopTicks [] false [false, false, true, true, false]).map
        (countClear ParamKeyType.CLEAR_ON_OFFROAD_TRANSITION)) = [0, 0, 0, 0, 1] ∧
    ∀ (ignore : List String) (b : Bool),
      countClear ParamKeyType.CLEAR_ON_ONROAD_TRANSITION (tickEvents ignore b b) = 0 ∧
      countClear ParamKeyType.CLEAR_ON_OFFROAD_TRANSITION (tickEvents ignore b b) = 0 := by
  refine ⟨by decide, by decide, ?_⟩
  intro ignore b
  cases b <;> simp [tickEvents, countClear]

/-- Claim C10: before the first loop tick consumes a telemetry sample, the
thread's trace is exactly the off-road safety-parameter write followed by one
`ensure_running` call with `started = false` and the computed ignore set. -/
theorem pre_loop_offroad_setup (dongleId : Option String) (noboard : Bool)
    (blockEnv : String) (samples : List Bool) :
    (manager_thread_events dongleId noboard blockEnv samples).takeWhile
        (fun e => ! e.isSample) =
      [ThreadEv.writeOnroadParams false,
       ThreadEv.ensureRunning false (computeIgnore dongleId noboard blockEnv)] := by
  cases samples with
  | nil => simp [manager_thread_events, loopTicks, ThreadEv.isSample, List.takeWhile]
  | cons st rest =>
      simp [manager_thread_events, loopTicks, tickEvents, ThreadEv.isSample, List.takeWhile]

/-- Modelled from the spec: a managed worker as observed through the
`ProcessRegistry` interface (`prepare() / start() / stop(block) / isAlive()`);
the per-process stop machinery lives in `selfdrive/manager/process.py`, which
is not part of this source.  A non-blocking `stop` only files the stop
request; a blocking `stop` additionally waits until the process is no longer
alive, so afterwards `isAlive()` is false. -/
structure Worker where
  name : String
  alive : Bool
  stopRequested : Bool
  deriving DecidableEq, Repr

/-- `p.stop(block=...)` on one managed worker (interface semantics above). -/
def Worker.stop (w : Worker) (block : Bool) : Worker :=
  if block then { w with stopRequested := true, alive := false }
  else { w with stopRequested := true }

/-- One `p.stop(block=...)` call as an observable teardown event. -/
inductive CleanupEv
  | stopCall (name : String) (block : Bool)
  deriving DecidableEq, Repr

/-- One `for p in managed_processes.values(): p.stop(block=...)` pass, in
enumeration order, returning the updated workers and the calls made. -/
def runStopPhase (block : Bool) : List Worker → List Worker × List CleanupEv
  | [] => ([], [])
  | p :: rest =>
      let r := runStopPhase block rest
      (p.stop block :: r.1, CleanupEv.stopCall p.name block :: r.2)

/-- Lines 210-219: `manager_cleanup` — phase 1 sends a non-blocking stop to
every managed worker in enumeration order, phase 2 then performs a blocking
stop over the same enumeration. -/
def manager_cleanup (ps : List Worker) : List Worker × List CleanupEv :=
  let ph1 := runStopPhase false ps
  let ph2 := runStopPhase true ph1.1
  (ph2.1, ph1.2 ++ ph2.2)

theorem runStopPhase_eq (b : Bool) (ps : List Worker) :
    runStopPhase b ps =
      (ps.map (fun p => p.stop b), ps.map (fun p => CleanupEv.stopCall p.name b)) := by
  induction ps with
  | nil => simp [runStopPhase]
  | cons p rest ih => simp [runStopPhase, ih]

/-- Claim C4: for any list of managed workers (count ≥ 0), `manager_cleanup`
first issues a non-blocking stop to every worker in enumeration order, only
then a blocking stop-wait to every worker in the same order, and afterwards
no worker is alive. -/
theorem cleanup_two_phase_all_dead (ps : List Worker) :
    (manager_cleanup ps).2 =
      ps.map (fun p => CleanupEv.stopCall p.name false) ++
      ps.map (fun p => CleanupEv.stopCall p.name true) ∧
    (manager_cleanup ps).1.all (fun w => !w.alive) = true := by
  simp [manager_cleanup, runStopPhase_eq, List.map_map, Function.comp, Worker.stop,
    List.all_eq_true]

/-- Lines 149-152 of `manager_init`:
`for k, v in default_params: if params.get(k) is None: params.put(k, v)` —
sequential seeding that writes an entry iff its key reads unset at that
moment. -/
def seedDefaults : List (String × String) → Params → Params
  | [], s => s
  | kv :: rest, s =>
      seedDefaults rest
        (match s kv.1 with
         | none => s.put kv.1 kv.2
         | some _ => s)

theorem seedDefaults_preserves :
    ∀ (d : List (String × String)) (s : Params) (k v : String),
      s k = some v → seedDefaults d s k = some v := by
  intro d
  induction d with
  | nil => intro s k v h; simpa [seedDefaults] using h
  | cons kv rest ih =>
      intro s k v h
      cases hsa : s kv.1 with
      | some w => simpa [seedDefaults, hsa] using ih s k v h
      | none =>
          have hk : k ≠ kv.1 := fun he => by rw [he, hsa] at h; exact Option.noConfusion h
          have : (s.put kv.1 kv.2) k = some v := by
            simpa [Params.get_put_ne _ _ hk] using h
          simpa [seedDefaults, hsa] using ih _ k v this

theorem seedDefaults_sets_key :
    ∀ (d : List (String × String)) (s : Params) (k : String),
      k ∈ d.map Prod.fst → ∃ v, seedDefaults d s k = some v := by
  intro d
  induction d with
  | nil => intro s k h; simp at h
  | cons kv rest ih =>
      intro s k h
      have h2 : k = kv.1 ∨ k ∈ rest.map Prod.fst := by
        simpa using h
      rcases h2 with he | hr
      · cases hsa : s kv.1 with
        | some w =>
            exact ⟨w, by simpa [seedDefaults, hsa, he] using
              seedDefaults_preserves rest s k w (he ▸ hsa)⟩
        | none =>
            refine ⟨kv.2, ?_⟩
            have : (s.put kv.1 kv.2) k = some kv.2 := by
              rw [he]; exact Params.get_put_self s kv.1 kv.2
            simpa [seedDefaults, hsa] using seedDefaults_preserves rest _ k kv.2 this
      · cases hsa : s kv.1 with
        | some w => simpa [seedDefaults, hsa] using ih s k hr
        | none => simpa [seedDefaults, hsa] using ih _ k hr

theorem seedDefaults_noop :
    ∀ (d : List (String × String)) (s : Params),
      (∀ kv ∈ d, s kv.1 ≠ none) → ∀ k, seedDefaults d s k = s k := by
  intro d
  induction d with
  | nil => intro s _ k; simp [seedDefaults]
  | cons kv rest ih =>
      intro s h k
      cases hsa : s kv.1 with
      | some w =>
          simpa [seedDefaults, hsa] using ih s (fun kv' h' => h kv' (List.mem_cons_of_mem _ h')) k
      | none => exact absurd hsa (h kv (List.mem_cons_self _ _))

/-- Claim C5: the seeding pass never overwrites a key that already has a
value, and running the pass a second time changes no key at all — in
particular no key that already had a value after the first run (idempotence
over the store state), for any default table and any starting store. -/
theorem seed_defaults_idempotent (d : List (String × String)) (s : Params) :
    (∀ k v, s k = some v → seedDefaults d s k = some v) ∧
    (∀ k, seedDefaults d (seedDefaults d s) k = seedDefaults d s k) := by
  refine ⟨fun k v h => seedDefaults_preserves d s k v h, fun k => ?_⟩
  refine seedDefaults_noop d (seedDefaults d s) ?_ k
  intro kv hm
  obtain ⟨v, hv⟩ := seedDefaults_sets_key d s kv.1 (List.mem_map_of_mem Prod.fst hm)
  simp [hv]

/-- Witness for C5 at a one-entry table and a store holding one other key. -/
theorem seed_defaults_idempotent_witness :
    seedDefaults [("GsmMetered", "1")] (emptyParams.put "Passive" "0") "Passive" = some "0" ∧
    seedDefaults [("GsmMetered", "1")]
        (seedDefaults [("GsmMetered", "1")] (emptyParams.put "Passive" "0")) "GsmMetered" =
      seedDefaults [("GsmMetered", "1")] (emptyParams.put "Passive" "0") "GsmMetered" :=
  ⟨(seed_defaults_idempotent [("GsmMetered", "1")] (emptyParams.put "Passive" "0")).1
      "Passive" "0" (by decide),
   (seed_defaults_idempotent [("GsmMetered", "1")] (emptyParams.put "Passive" "0")).2
      "GsmMetered"⟩

/-- Lines 44-144 of `manager_init`: the static default-parameter table.
`str(log.LongitudinalPersonality.standard)` is the capnp enum's numeric
value `"1"`; when not running on a PC, the boot's UTC timestamp is appended
under `LastUpdateTime`. -/
def default_params (pc : Bool) (nowIso : String) : List (String × String) :=
  [("CompletedTrainingVersion", "0"),
   ("DisengageOnAccelerator", "0"),
   ("GsmMetered", "1"),
   ("HasAcceptedTerms", "0"),
   ("LanguageSetting", "main_en"),
   ("OpenpilotEnabledToggle", "1"),
   ("LongitudinalPersonality", "1"),
   ("ShowDebugUI", "0"),
   ("ShowDateTime", "1"),
   ("ShowHudMode", "4"),
   ("ShowSteerRotate", "1"),
   ("ShowPathEnd", "1"),
   ("ShowAccelRpm", "1"),
   ("ShowTpms", "1"),
   ("ShowSteerMode", "2"),
   ("ShowDeviceState", "1"),
   ("ShowConnInfo", "1"),
   ("ShowLaneInfo", "1"),
   ("ShowBlindSpot", "1"),
   ("ShowGapInfo", "1"),
   ("ShowDmInfo", "1"),
   ("ShowRadarInfo", "1"),
   ("MixRadarInfo", "0"),
   ("ShowZOffset", "122"),
   ("ShowPathMode", "9"),
   ("ShowPathColor", "12"),
   ("ShowPathModeCruiseOff", "0"),
   ("ShowPathColorCruiseOff", "19"),
   ("ShowPathModeLane", "12"),
   ("ShowPathColorLane", "13"),
   ("ShowPathWidth", "100"),
   ("ShowPlotMode", "0"),
   ("AutoResumeFromGasSpeed", "0"),
   ("AutoCancelFromGasMode", "0"),
   ("AutoCruiseControl", "0"),
   ("MapboxStyle", "0"),
   ("AutoCurveSpeedCtrlUse", "0"),
   ("AutoCurveSpeedFactor", "100"),
   ("AutoCurveSpeedFactorIn", "50"),
   ("AutoTurnControl", "0"),
   ("AutoTurnControlSpeedLaneChange", "60"),
   ("AutoTurnControlSpeedTurn", "20"),
   ("AutoTurnControlTurnEnd", "6"),
   ("AutoNaviSpeedCtrlEnd", "6"),
   ("AutoNaviSpeedBumpTime", "1"),
   ("AutoNaviSpeedBumpSpeed", "35"),
   ("AutoNaviSpeedSafetyFactor", "105"),
   ("AutoNaviSpeedDecelRate", "80"),
   ("AutoResumeFromBrakeReleaseTrafficSign", "0"),
   ("StartAccelApply", "0"),
   ("StopAccelApply", "50"),
   ("StoppingAccel", "-80"),
   ("AutoSpeedUptoRoadSpeedLimit", "100"),
   ("AChangeCost", "200"),
   ("AChangeCostStart", "40"),
   ("ALeadTau", "150"),
   ("ALeadTauStart", "50"),
   ("TrafficStopMode", "1"),
   ("CruiseButtonMode", "0"),
   ("CruiseSpeedUnit", "10"),
   ("MyDrivingMode", "3"),
   ("MySafeModeFactor", "60"),
   ("LiveSteerRatioApply", "100"),
   ("MyEcoModeFactor", "80"),
   ("CruiseMaxVals1", "160"),
   ("CruiseMaxVals2", "120"),
   ("CruiseMaxVals3", "100"),
   ("CruiseMaxVals4", "80"),
   ("CruiseMaxVals5", "70"),
   ("CruiseMaxVals6", "60"),
   ("CruiseSpeedMin", "10"),
   ("LongitudinalTuningKpV", "100"),
   ("LongitudinalTuningKiV", "0"),
   ("LongitudinalTuningKf", "100"),
   ("LongitudinalActuatorDelayUpperBound", "50"),
   ("LongitudinalActuatorDelayLowerBound", "50"),
   ("EnableRadarTracks", "0"),
   ("SccConnectedBus2", "0"),
   ("SoundVolumeAdjust", "100"),
   ("SoundVolumeAdjustEngage", "10"),
   ("TFollowSpeedAdd", "0"),
   ("TFollowSpeedAddM", "0"),
   ("SoftHoldMode", "0"),
   ("CruiseEcoControl", "4"),
   ("UseLaneLineSpeed", "0"),
   ("AdjustLaneOffset", "0"),
   ("AdjustCurveOffset", "0"),
   ("UseModelPath", "0"),
   ("PathOffset", "0"),
   ("LateralTorqueCustom", "0"),
   ("LateralTorqueAccelFactor", "2500"),
   ("LateralTorqueFriction", "100"),
   ("SteerActuatorDelay", "40"),
   ("CruiseOnDist", "0"),
   ("SteerRatioApply", "0"),
   ("StartRecord", "0"),
   ("StopRecord", "0")] ++
  (if pc then [] else [("LastUpdateTime", nowIso)])

/-- Environment-style inputs and external collaborator outcomes consumed by
`manager_init` and `main`: `passive` is the parsed `PASSIVE` override
(absent = `none`); `regResult` what `register()` returned (`none` models a
falsy result); `pc` / `releaseBranch` / `testedBranch` the platform and
build flags; `nowIso` the boot timestamp; the version metadata strings are
opaque. -/
structure Env where
  passive : Option Bool
  noboard : Bool
  blockEnv : String
  prepareOnly : Bool
  releaseBranch : Bool
  pc : Bool
  nowIso : String
  version : String
  termsVersion : String
  trainingVersion : String
  gitCommit : String
  gitBranch : String
  gitRemote : String
  testedBranch : Bool
  regResult : Option String

/-- Lines 37-42 of `manager_init`: clear the manager-start and the two
transition categories, and `DEVELOPMENT_ONLY` on a release build.  `tags` is
the store engine's key tagging (external data). -/
def initClears (env : Env) (tags : String → ParamKeyType → Bool) (s : Params) : Params :=
  let s1 := s.clearAll tags ParamKeyType.CLEAR_ON_MANAGER_START
  let s2 := s1.clearAll tags ParamKeyType.CLEAR_ON_ONROAD_TRANSITION
  let s3 := s2.clearAll tags ParamKeyType.CLEAR_ON_OFFROAD_TRANSITION
  if env.releaseBranch then s3.clearAll tags ParamKeyType.DEVELOPMENT_ONLY else s3

/-- Lines 146-152: the `RecordFrontLock` derived rule, then the seeding pass
over the default table. -/
def storeAfterSeed (env : Env) (tags : String → ParamKeyType → Bool) (s : Params) : Params :=
  let s0 := initClears env tags s
  let s1 := if s0.getBool "RecordFrontLock" then s0.putBool "RecordFront" true else s0
  seedDefaults (default_params env.pc env.nowIso) s1

/-- Lines 154-156: write the `PASSIVE` environment override when present. -/
def storeAfterPassiveOverride (env : Env) (tags : String → ParamKeyType → Bool)
    (s : Params) : Params :=
  let s1 := storeAfterSeed env tags s
  match env.passive with
  | some b => s1.putBool "Passive" b
  | none => s1

/-- Lines 169-177: version/build metadata writes. -/
def putVersionParams (env : Env) (s : Params) : Params :=
  ((((((((s.put "Version" env.version).put "TermsVersion" env.termsVersion).put
    "TrainingVersion" env.trainingVersion).put "GitCommit" env.gitCommit).put
    "GitBranch" env.gitBranch).put "GitRemote" env.gitRemote).putBool
    "IsTestedBranch" env.testedBranch).putBool "IsReleaseBranch" env.releaseBranch)

/-- `manager_init` (lines 30-203) as a store transformer that can fail.
Store-free effects (clock sync, boot log, `/dev/shm` creation, sentry
binding, crash-marker removal) do not appear in the state.  The two fatal
raises are the missing passive-mode value (lines 158-159) and a falsy
registration result (lines 180-185, whose message carries the hardware
serial read from the store). -/
def manager_init (env : Env) (tags : String → ParamKeyType → Bool) (s : Params) :
    Except String Params :=
  let s1 := storeAfterPassiveOverride env tags s
  match s1 "Passive" with
  | none => Except.error "Passive must be set to continue"
  | some _ =>
    let s2 := putVersionParams env s1
    let serial := match s2 "HardwareSerial" with
      | some x => x
      | none => "None"
    match env.regResult with
    | none => Except.error ("Registration failed for device " ++ serial)
    | some d =>
        if d = "" then Except.error ("Registration failed for device " ++ serial)
        else Except.ok s2

/-- `main` (lines 297-338) with the `__main__` guard's fallback, as an event
trace: run `manager_init` (a failure aborts everything), start the UI worker
early unless `PREPAREONLY` is set, prepare all workers, return if
`PREPAREONLY`, otherwise install the SIGTERM handler and run the loop with
its `try/except/finally` tail.  `loopOutcome` abstracts what escaped
`manager_thread` (`none` = a normal break) and `sAfter` the store when the
loop ended; both are produced by the collaborators during a real run. -/
def main (env : Env) (tags : String → ParamKeyType → Bool) (s : Params)
    (loopOutcome : Option PyExc) (sAfter : Params) : List MainEv :=
  match manager_init env tags s with
  | Except.error m => [MainEv.initFail m]
  | Except.ok _ =>
      (if env.prepareOnly then [] else [MainEv.uiStart]) ++
      [MainEv.prepareAll] ++
      (if env.prepareOnly then [] else
        MainEv.sigInstall :: MainEv.loopRun :: mainTail loopOutcome sAfter)

def trivialTags : String → ParamKeyType → Bool := fun _ _ => false

def envPrepareOnly : Env :=
  { passive := some true, noboard := false, blockEnv := "", prepareOnly := true,
    releaseBranch := false, pc := true, nowIso := "t", version := "v",
    termsVersion := "tv", trainingVersion := "trv", gitCommit := "c",
    gitBranch := "b", gitRemote := "r", testedBranch := false,
    regResult := some "dongle" }

def envNoPassive : Env :=
  { envPrepareOnly with passive := none, prepareOnly := false }

/-- Claim C6: if, after the `PASSIVE` override step, the store still has no
`Passive` value, `manager_init` fails with the fatal
"Passive must be set to continue" error and the lifecycle loop is never
entered. -/
theorem passive_missing_aborts_startup (env : Env) (tags : String → ParamKeyType → Bool) (s : Params)
    (lo : Option PyExc) (sA : Params)
    (h : storeAfterPassiveOverride env tags s "Passive" = none) :
    manager_init env tags s = Except.error "Passive must be set to continue" ∧
    main env tags s lo sA = [MainEv.initFail "Passive must be set to continue"] ∧
    MainEv.loopRun ∉ main env tags s lo sA := by
  have h1 : manager_init env tags s = Except.error "Passive must be set to continue" := by
    simp [manager_init, h]
  refine ⟨h1, by simp [main, h1], by simp [main, h1]⟩

/-- Witness for C6: no `PASSIVE` override and an empty store. -/
theorem passive_missing_aborts_startup_witness :
    storeAfterPassiveOverride envNoPassive trivialTags emptyParams "Passive" = none ∧
    manager_init envNoPassive trivialTags emptyParams =
      Except.error "Passive must be set to continue" ∧
    MainEv.loopRun ∉ main envNoPassive trivialTags emptyParams none emptyParams :=
  ⟨by decide,
   (passive_missing_aborts_startup envNoPassive trivialTags emptyParams none emptyParams (by decide)).1,
   (passive_missing_aborts_startup envNoPassive trivialTags emptyParams none emptyParams (by decide)).2.2⟩

/-- Claim C8 counterexample: on a prepare-only run (with a store whose
`Passive` value resolves, so bootstrap succeeds) the trace is exactly the
prepare pass — contrary to the claim, the UI worker is NOT started early,
because line 310 guards `managed_processes['ui'].start()` with
`if not prepare_only`. -/
theorem prepare_only_claim_counterexample :
    main envPrepareOnly trivialTags emptyParams none emptyParams = [MainEv.prepareAll] ∧
    MainEv.uiStart ∉ main envPrepareOnly trivialTags emptyParams none emptyParams := by
  constructor
  · decide
  · decide

/-- Claim C8 (amended): when the prepare-only flag is set, the run performs
Bootstrap and prepares all managed workers but does NOT start the UI worker
(its early start is guarded by `if not prepare_only`), and then stops: the
termination handler is not installed and the loop, the teardown sequencer
and the power dispatch never execute — the trace after a successful
bootstrap is exactly the prepare pass. -/
theorem prepare_only_stops_after_prepare (env : Env) (tags : String → ParamKeyType → Bool) (s : Params)
    (lo : Option PyExc) (sA : Params) (hp : env.prepareOnly = true) :
    main env tags s lo sA =
      (match manager_init env tags s with
       | Except.error m => [MainEv.initFail m]
       | Except.ok _ => [MainEv.prepareAll]) := by
  cases h : manager_init env tags s <;> simp [main, h, hp]

/-- Witness for C8 at the concrete prepare-only environment. -/
theorem prepare_only_stops_after_prepare_witness :
    main envPrepareOnly trivialTags emptyParams none emptyParams = [MainEv.prepareAll] := by
  rw [prepare_only_stops_after_prepare envPrepareOnly trivialTags emptyParams none emptyParams rfl]
  decide


end Manager
